import Mathlib

/-!
Verification of the agent/tool-execution orchestration flow of the
aionai repository (MCP client demos, example MCP server, deployment
launcher, LangGraph toy agent).

The example server (`examples/simple_server.py`), the deployment
launcher (`deployment/run_server.py`) and the LangGraph script
(`src/agent.py`) are embedded directly from the source.  The agent /
tool-manager library (`mcp_client.llm.agent`) is not part of the
repository sources available here — only its callers are — so its
operations (`discover`, `execute`, `chat`, `execute_tool_directly`)
are modelled from the specification, faithful to its words.

Python float arithmetic is modelled with rationals; every concrete
input exercised by a theorem below (integers such as 15, 27, 100, 0)
is exact in both representations.
-/

/-- Values exchanged with tools.  `realPow` stands symbolically for the
float result of a non-integer exponentiation, which has no exact
rational representation. -/
inductive Value where
  | num (q : ℚ)
  | str (s : String)
  | realPow (base exponent : ℚ)
deriving DecidableEq, Repr

/-- Error kinds of the specification's §7. -/
inductive ErrorKind where
  | connectionError
  | protocolError
  | notFoundError
  | toolExecutionError
  | toolLoopExceededError
deriving DecidableEq, Repr

/- ### Example MCP server (`examples/simple_server.py`), embedded from source -/

/-- `add(a, b)`: return `a + b`. -/
def add (a b : ℚ) : ℚ := a + b

/-- `multiply(a, b)`: return `a * b`. -/
def multiply (a b : ℚ) : ℚ := a * b

/-- `divide(a, b)`: raise `ValueError("Cannot divide by zero")` when
`b == 0`, otherwise return `a / b`. -/
def divide (a b : ℚ) : Except String ℚ :=
  if b = 0 then Except.error "Cannot divide by zero" else Except.ok (a / b)

/-- `power(base, exponent)`: `base ** exponent`.  Exact for integer
exponents; symbolic otherwise (see `Value.realPow`). -/
def power (base exponent : ℚ) : Value :=
  if exponent.den = 1 then Value.num (base ^ exponent.num) else Value.realPow base exponent

/-- `get_current_time()`: returns the current time; the clock reading is
a parameter of the embedding. -/
def get_current_time (now : String) : String := now

/-- `echo(message)`: return `"Echo: " ++ message`. -/
def echo (message : String) : String := "Echo: " ++ message

/-- `download_file(file_name, folder_name, data)`: writes `data` to
`folder_name/file_name` and returns the confirmation string; the file
write is an external effect outside this embedding. -/
def download_file (file_name folder_name data : String) : String :=
  "File downloaded to " ++ folder_name ++ "/" ++ file_name

/-- The fields of the JSON object returned by the `status://health`
resource (`get_server_status`). -/
structure ServerStatus where
  status : String
  timestamp : String
  tools_available : Nat
  resources_available : Nat
  prompts_available : Nat
deriving DecidableEq, Repr

/-- `get_server_status()`: the `status://health` resource.  Every field
except the timestamp is a hard-coded constant in the source. -/
def get_server_status (now : String) : ServerStatus :=
  { status := "healthy"
    timestamp := now
    tools_available := 6
    resources_available := 3
    prompts_available := 2 }

/-- Dispatch of a tool call against the example server: route `name` to
the registered function, extract arguments by name, and surface a tool
exception as an error message.  Registered tools, their argument names
and their bodies are taken from `examples/simple_server.py`. -/
def callTool (now : String) (name : String) (args : List (String × Value)) :
    Except String Value :=
  match name with
  | "add" =>
    match args.lookup "a", args.lookup "b" with
    | some (Value.num a), some (Value.num b) => Except.ok (Value.num (add a b))
    | _, _ => Except.error "Invalid arguments"
  | "multiply" =>
    match args.lookup "a", args.lookup "b" with
    | some (Value.num a), some (Value.num b) => Except.ok (Value.num (multiply a b))
    | _, _ => Except.error "Invalid arguments"
  | "divide" =>
    match args.lookup "a", args.lookup "b" with
    | some (Value.num a), some (Value.num b) =>
      match divide a b with
      | Except.ok v => Except.ok (Value.num v)
      | Except.error e => Except.error e
    | _, _ => Except.error "Invalid arguments"
  | "power" =>
    match args.lookup "base", args.lookup "exponent" with
    | some (Value.num b), some (Value.num e) => Except.ok (power b e)
    | _, _ => Except.error "Invalid arguments"
  | "get_current_time" => Except.ok (Value.str (get_current_time now))
  | "echo" =>
    match args.lookup "message" with
    | some (Value.str m) => Except.ok (Value.str (echo m))
    | _ => Except.error "Invalid arguments"
  | "download_file" =>
    match args.lookup "file_name", args.lookup "folder_name", args.lookup "data" with
    | some (Value.str f), some (Value.str d), some (Value.str data) =>
      Except.ok (Value.str (download_file f d data))
    | _, _, _ => Except.error "Invalid arguments"
  | _ => Except.error ("Unknown tool: " ++ name)

/- ### Capability catalog -/

/-- Modelled from the spec: a ToolDescriptor has a name, a free-text
description and a category label used only for display grouping. -/
structure ToolDescriptor where
  name : String
  description : String
  category : String
deriving DecidableEq, Repr

/-- A provider's capability catalog: tools, resource URIs, prompt names. -/
structure Catalog where
  tools : List ToolDescriptor
  resources : List String
  prompts : List String
deriving DecidableEq, Repr

/-- The seven tools registered by `examples/simple_server.py`, in
registration order, with the docstrings from the source.  Categories
follow the server's own `info://capabilities` grouping (calculator /
utility); `download_file` is absent from that grouping and is placed in
its own `file` category. -/
def exampleTools : List ToolDescriptor :=
  [ { name := "add", description := "Add two numbers together.", category := "calculator" },
    { name := "multiply", description := "Multiply two numbers together.", category := "calculator" },
    { name := "divide", description := "Divide two numbers (a / b).", category := "calculator" },
    { name := "power", description := "Raise base to the power of exponent.", category := "calculator" },
    { name := "get_current_time", description := "Get the current date and time.", category := "utility" },
    { name := "echo", description := "Echo back the provided message.", category := "utility" },
    { name := "download_file", description := "Download a file from the given URL.", category := "file" } ]

/-- The full catalog registered by `examples/simple_server.py`: seven
tools, three resources, two prompts, in registration order. -/
def exampleCatalog : Catalog :=
  { tools := exampleTools
    resources := ["config://server", "status://health", "info://capabilities"]
    prompts := ["code_review", "explain_code"] }

/- ### Tool Manager (modelled from the spec, §4.1) -/

/-- Modelled from the spec: the Tool Manager holds the mapping from tool
name to ToolDescriptor populated by discovery (`mcp_client.llm.agent` is
not among the available sources). -/
structure ToolManager where
  catalog : Catalog
deriving DecidableEq, Repr

/-- Modelled from the spec: `discover()` queries the Tool Provider
Client for its current catalog and populates the internal mapping. -/
def ToolManager.discover (provider : Catalog) : ToolManager :=
  { catalog := provider }

/-- Whether a tool name is present in the discovered mapping. -/
def ToolManager.knows (tm : ToolManager) (name : String) : Bool :=
  tm.catalog.tools.any fun d => d.name == name

/-- Modelled from the spec: `describe()` returns the discovered tools
grouped by category, purely derived from the catalog. -/
def ToolManager.describe (tm : ToolManager) : List (String × List String) :=
  ((tm.catalog.tools.map fun d => d.category).eraseDups).map fun c =>
    (c, (tm.catalog.tools.filter fun d => d.category == c).map fun d => d.name)

/-- A completed tool execution: name, arguments, success flag, result or
error message, duration in milliseconds. -/
structure ToolCallRecord where
  tool_name : String
  arguments : List (String × Value)
  success : Bool
  result : Option Value
  error : Option String
  execution_time_ms : Nat
deriving DecidableEq, Repr

/-- Modelled from the spec: `execute(name, arguments)` looks up `name`,
fails with a `NotFoundError` kind if absent, otherwise delegates to the
Tool Provider Client; a provider-side failure is recovered into a
ToolCallRecord with `success := false` and the error message, never
propagated.  The measured wall-clock duration is a parameter. -/
def ToolManager.execute (tm : ToolManager)
    (call : String → List (String × Value) → Except String Value)
    (dur : Nat) (name : String) (args : List (String × Value)) :
    Except ErrorKind ToolCallRecord :=
  if tm.knows name then
    match call name args with
    | Except.ok v =>
      Except.ok { tool_name := name, arguments := args, success := true,
                  result := some v, error := none, execution_time_ms := dur }
    | Except.error msg =>
      Except.ok { tool_name := name, arguments := args, success := false,
                  result := none, error := some msg, execution_time_ms := dur }
  else Except.error ErrorKind.notFoundError

/- ### Conversational Agent (modelled from the spec, §4.2) -/

/-- Message roles of the Conversation data model. -/
inductive Role where
  | user
  | assistant
  | tool
deriving DecidableEq, Repr

/-- A Conversation entry: role, textual content, and the tool-call
records attached to tool-role entries. -/
structure Message where
  role : Role
  content : String
  tool_calls : List ToolCallRecord
deriving DecidableEq, Repr

/-- The user Message appended at the start of a turn. -/
def userMsg (s : String) : Message :=
  { role := Role.user, content := s, tool_calls := [] }

/-- The assistant Message appended for a plain (no tool calls) reply. -/
def assistantMsg (s : String) : Message :=
  { role := Role.assistant, content := s, tool_calls := [] }

/-- The tool-role Message appended for one completed tool call. -/
def toolMsg (r : ToolCallRecord) : Message :=
  { role := Role.tool, content := r.tool_name, tool_calls := [r] }

/-- Whether a Message has the tool role. -/
def isToolMsg (m : Message) : Bool := m.role == Role.tool

/-- One tool invocation requested by the LLM. -/
structure ToolCallRequest where
  name : String
  arguments : List (String × Value)
deriving DecidableEq, Repr

/-- The LLM Provider Client's reply: natural-language text, requested
tool calls (empty for a plain reply), token usage. -/
structure LLMReply where
  text : String
  tool_calls : List ToolCallRequest
  tokens : Nat

/-- The value returned by one `chat` turn: final text, the turn's
ToolCallRecords, total duration, and the error kind when the turn did
not complete normally (e.g. `toolLoopExceededError`). -/
structure AgentResponse where
  response : String
  tool_calls : List ToolCallRecord
  execution_time : Nat
  error_kind : Option ErrorKind
deriving Repr

/-- An Agent owns its Tool Manager binding and its Conversation. -/
structure Agent where
  tm : ToolManager
  conversation : List Message

/-- Modelled from the spec: `execute_tool_directly(name, arguments)`
bypasses the LLM, calling `Tool Manager.execute` and returning its
payload; a `NotFoundError` kind raised there is propagated. -/
def Agent.execute_tool_directly (ag : Agent)
    (call : String → List (String × Value) → Except String Value)
    (dur : Nat) (name : String) (args : List (String × Value)) :
    Except ErrorKind ToolCallRecord :=
  ag.tm.execute call dur name args

/-- Modelled from the spec (§7, §9): a `NotFoundError` arising inside
`chat`'s tool-resolution loop is recovered into a failed ToolCallRecord
so the turn continues. -/
def recoverExecute (tm : ToolManager)
    (call : String → List (String × Value) → Except String Value)
    (dur : Nat) (req : ToolCallRequest) : ToolCallRecord :=
  match tm.execute call dur req.name req.arguments with
  | Except.ok r => r
  | Except.error _ =>
    { tool_name := req.name, arguments := req.arguments, success := false,
      result := none, error := some ("Tool not found: " ++ req.name),
      execution_time_ms := dur }

/-- Modelled from the spec: `chat`'s tool-resolution loop.  Each round
sends the Conversation to the LLM; a plain reply is appended as an
assistant Message and ends the turn; otherwise the requested tool calls
are executed sequentially in request order, each appended as a
tool-role Message, and the loop repeats with one less round available.
Exhausting the round budget ends the turn with the loop-exceeded flag
set and the best available (most recent) reply text.  Returns the
updated Conversation, the accumulated ToolCallRecords, the final text
and the loop-exceeded flag. -/
def resolve (llm : List Message → LLMReply)
    (call : String → List (String × Value) → Except String Value)
    (tm : ToolManager) (dur : Nat) :
    Nat → List Message → List ToolCallRecord → String →
    List Message × List ToolCallRecord × String × Bool
  | 0, conv, recs, lastText => (conv, recs, lastText, true)
  | Nat.succ fuel, conv, recs, _ =>
    let reply := llm conv
    if reply.tool_calls = [] then
      (conv ++ [assistantMsg reply.text], recs, reply.text, false)
    else
      let newRecs := reply.tool_calls.map (recoverExecute tm call dur)
      resolve llm call tm dur fuel (conv ++ newRecs.map toolMsg)
        (recs ++ newRecs) reply.text

/-- The sequence of tool calls the LLM requests across the whole turn,
in request order: a specification-side mirror of `resolve`, determined
by the LLM function and the starting Conversation. -/
def turnRequests (llm : List Message → LLMReply)
    (call : String → List (String × Value) → Except String Value)
    (tm : ToolManager) (dur : Nat) :
    Nat → List Message → List ToolCallRequest
  | 0, _ => []
  | Nat.succ fuel, conv =>
    let reply := llm conv
    if reply.tool_calls = [] then []
    else
      reply.tool_calls ++
        turnRequests llm call tm dur fuel
          (conv ++ (reply.tool_calls.map (recoverExecute tm call dur)).map toolMsg)

/-- Modelled from the spec: `chat(message)` appends a user Message,
runs the tool-resolution loop with the configured maximum round count,
and returns the updated Agent together with the AgentResponse; a loop
overflow is reported as the `toolLoopExceededError` kind. -/
def Agent.chat (ag : Agent) (llm : List Message → LLMReply)
    (call : String → List (String × Value) → Except String Value)
    (dur : Nat) (maxRounds : Nat) (message : String) :
    Agent × AgentResponse :=
  let start := ag.conversation ++ [userMsg message]
  let out := resolve llm call ag.tm dur maxRounds start [] ""
  ({ tm := ag.tm, conversation := out.1 },
   { response := out.2.2.1
     tool_calls := out.2.1
     execution_time := dur
     error_kind := if out.2.2.2 then some ErrorKind.toolLoopExceededError else none })

/- ### LangGraph toy agent (`src/agent.py`), embedded from source -/

/-- LangChain message values used by the toy agent. -/
inductive BaseMsg where
  | human (content : String)
  | ai (content : String)
deriving DecidableEq, Repr

/-- A MessageGraph: named nodes mapping the message-list state to one
emitted message, edges by node name (END is the name `__end__`), and an
entry point.  This embeds the external `langgraph` library's behaviour
as used by `src/agent.py`. -/
structure MessageGraph where
  nodes : List (String × (List BaseMsg → BaseMsg))
  edges : List (String × String)
  entry : String

/-- `get_agent()`: builds the graph with the single node `oracle` whose
body is `lambda state: HumanMessage(content="Hello, world!")`, an edge
from `oracle` to END, and `oracle` as entry point. -/
def get_agent : MessageGraph :=
  { nodes := [("oracle", fun _ => BaseMsg.human "Hello, world!")]
    edges := [("oracle", "__end__")]
    entry := "oracle" }

/-- Run the compiled graph from a node: emit each visited node's output
(as `stream` does), appending each output to the message-list state,
until END or a missing node is reached; fuel bounds the walk. -/
def runFrom (g : MessageGraph) : Nat → String → List BaseMsg →
    List (String × BaseMsg)
  | 0, _, _ => []
  | Nat.succ fuel, cur, state =>
    if cur = "__end__" then []
    else
      match g.nodes.lookup cur with
      | none => []
      | some f =>
        let out := f state
        (cur, out) ::
          match g.edges.lookup cur with
          | none => []
          | some nxt => runFrom g fuel nxt (state ++ [out])

/-- The stream of node emissions of the compiled graph on an input
message list. -/
def MessageGraph.stream (g : MessageGraph) (input : List BaseMsg) :
    List (String × BaseMsg) :=
  runFrom g (g.nodes.length + 1) g.entry input

/- ### Deployment launcher shutdown (`deployment/run_server.py`), embedded from source -/

/-- A child process at the moment shutdown begins: its name, whether it
is still alive, and whether it would exit within the 5-second join
grace period once asked to terminate. -/
structure Proc where
  name : String
  alive : Bool
  exitsWithinGrace : Bool
deriving DecidableEq, Repr

/-- Actions the launcher's shutdown handler performs on a process. -/
inductive SdAction where
  | terminate (p : String)
  | join (p : String) (timeoutSec : Nat)
  | kill (p : String)
deriving DecidableEq, Repr

/-- The `KeyboardInterrupt` handler of `main()` in "both" mode, per
process: if the process is alive, call `terminate()`, then
`join(timeout=5)`, and only if it is still alive afterwards call
`kill()`; a process already dead is skipped. -/
def shutdownProc (p : Proc) : List SdAction :=
  if p.alive then
    [SdAction.terminate p.name, SdAction.join p.name 5] ++
      (if p.exitsWithinGrace then [] else [SdAction.kill p.name])
  else []

/-- The handler iterates over the started processes in order. -/
def shutdownAll (ps : List Proc) : List SdAction :=
  (ps.map shutdownProc).flatten

/-- Whether a provider call succeeded. -/
def callOk (r : Except String Value) : Bool :=
  match r with
  | Except.ok _ => true
  | Except.error _ => false

/-- An LLM stub that requests one fixed tool call on its first round and
returns a plain reply once a tool-role Message is present: the smallest
conversation in which a `NotFoundError` arises inside `chat`'s
tool-resolution loop. -/
def oneShotLLM (name : String) (args : List (String × Value)) :
    List Message → LLMReply :=
  fun conv =>
    if conv.any isToolMsg then { text := "recovered", tool_calls := [], tokens := 0 }
    else { text := "", tool_calls := [{ name := name, arguments := args }], tokens := 0 }

/- ### Lemmas about the tool-resolution loop -/

lemma resolve_conv_append (llm : List Message → LLMReply)
    (call : String → List (String × Value) → Except String Value)
    (tm : ToolManager) (dur : Nat) :
    ∀ (fuel : Nat) (conv : List Message) (recs : List ToolCallRecord) (lastText : String),
      ∃ t, (resolve llm call tm dur fuel conv recs lastText).1 = conv ++ t := by
  intro fuel
  induction fuel with
  | zero =>
    intro conv recs lastText
    exact ⟨[], by simp [resolve]⟩
  | succ fuel ih =>
    intro conv recs lastText
    by_cases h : (llm conv).tool_calls = []
    · exact ⟨[assistantMsg (llm conv).text], by simp [resolve, h]⟩
    · obtain ⟨t, ht⟩ :=
        ih (conv ++ ((llm conv).tool_calls.map (recoverExecute tm call dur)).map toolMsg)
          (recs ++ (llm conv).tool_calls.map (recoverExecute tm call dur)) (llm conv).text
      refine ⟨((llm conv).tool_calls.map (recoverExecute tm call dur)).map toolMsg ++ t, ?_⟩
      simp only [resolve, h, if_neg h, ite_false]
      rw [← List.append_assoc]
      simpa using ht

lemma resolve_recs_eq (llm : List Message → LLMReply)
    (call : String → List (String × Value) → Except String Value)
    (tm : ToolManager) (dur : Nat) :
    ∀ (fuel : Nat) (conv : List Message) (recs : List ToolCallRecord) (lastText : String),
      (resolve llm call tm dur fuel conv recs lastText).2.1 =
        recs ++ (turnRequests llm call tm dur fuel conv).map (recoverExecute tm call dur) := by
  intro fuel
  induction fuel with
  | zero =>
    intro conv recs lastText
    simp [resolve, turnRequests]
  | succ fuel ih =>
    intro conv recs lastText
    by_cases h : (llm conv).tool_calls = []
    · simp [resolve, turnRequests, h]
    · simp only [resolve, turnRequests, if_neg h]
      rw [ih]
      simp [List.append_assoc]

lemma filter_toolMsg_map (recs : List ToolCallRecord) :
    (recs.map toolMsg).filter isToolMsg = recs.map toolMsg := by
  apply List.filter_eq_self.mpr
  intro m hm
  obtain ⟨r, _, rfl⟩ := List.mem_map.mp hm
  rfl

lemma resolve_filter_tool (llm : List Message → LLMReply)
    (call : String → List (String × Value) → Except String Value)
    (tm : ToolManager) (dur : Nat) :
    ∀ (fuel : Nat) (conv : List Message) (recs : List ToolCallRecord) (lastText : String),
      ((resolve llm call tm dur fuel conv recs lastText).1).filter isToolMsg =
        conv.filter isToolMsg ++
          ((turnRequests llm call tm dur fuel conv).map (recoverExecute tm call dur)).map toolMsg := by
  intro fuel
  induction fuel with
  | zero =>
    intro conv recs lastText
    simp [resolve, turnRequests]
  | succ fuel ih =>
    intro conv recs lastText
    by_cases h : (llm conv).tool_calls = []
    · simp [resolve, turnRequests, h, List.filter_append, isToolMsg, assistantMsg]
    · simp only [resolve, turnRequests, if_neg h]
      rw [ih]
      simp [List.filter_append, filter_toolMsg_map, List.append_assoc]
      intro a _
      rfl

lemma resolve_exceeded (llm : List Message → LLMReply)
    (call : String → List (String × Value) → Except String Value)
    (tm : ToolManager) (dur : Nat)
    (h : ∀ conv, (llm conv).tool_calls ≠ []) :
    ∀ (fuel : Nat) (conv : List Message) (recs : List ToolCallRecord) (lastText : String),
      (resolve llm call tm dur fuel conv recs lastText).2.2.2 = true := by
  intro fuel
  induction fuel with
  | zero =>
    intro conv recs lastText
    simp [resolve]
  | succ fuel ih =>
    intro conv recs lastText
    simp only [resolve, if_neg (h conv)]
    exact ih _ _ _

lemma chat_conv_append (ag : Agent) (llm : List Message → LLMReply)
    (call : String → List (String × Value) → Except String Value)
    (dur mr : Nat) (m : String) :
    ∃ t, ((ag.chat llm call dur mr m).1).conversation = ag.conversation ++ t := by
  obtain ⟨t, ht⟩ :=
    resolve_conv_append llm call ag.tm dur mr (ag.conversation ++ [userMsg m]) [] ""
  exact ⟨[userMsg m] ++ t, by simp [Agent.chat, ht]⟩

/- ### Claim theorems -/

/-- C10: the `status://health` resource reports the fixed counts
`tools_available = 6`, `resources_available = 3`, `prompts_available = 2`
and status `"healthy"` regardless of server state, while the module
registers seven tools, so the reported tool count does not equal the
number of registered tools. -/
theorem c10_health_resource_constant : ∀ now : String,
    (get_server_status now).status = "healthy" ∧
    (get_server_status now).tools_available = 6 ∧
    (get_server_status now).resources_available = 3 ∧
    (get_server_status now).prompts_available = 2 ∧
    exampleCatalog.tools.map (fun d => d.name) =
      ["add", "multiply", "divide", "power", "get_current_time", "echo", "download_file"] ∧
    exampleCatalog.tools.length = 7 ∧
    (get_server_status now).tools_available ≠ exampleCatalog.tools.length := by
  intro now
  exact ⟨rfl, rfl, rfl, rfl, rfl, rfl, show (6 : Nat) ≠ 7 by decide⟩

/-- C9: the compiled LangGraph agent's emitted output is independent of
its input: on every input message list the oracle node yields the same
single `HumanMessage` with content `"Hello, world!"`. -/
theorem c9_agent_constant :
    (∀ input : List BaseMsg,
      get_agent.stream input = [("oracle", BaseMsg.human "Hello, world!")]) ∧
    ∀ i1 i2 : List BaseMsg, get_agent.stream i1 = get_agent.stream i2 :=
  ⟨fun _ => rfl, fun _ _ => rfl⟩

/-- C1 counterexample: `discover()` against the example server does not
yield exactly two resources — the server registers three
(`config://server`, `status://health`, `info://capabilities`). -/
theorem c1_counterexample :
    (ToolManager.discover exampleCatalog).catalog.resources ≠
        ["config://server", "status://health"] ∧
    (ToolManager.discover exampleCatalog).catalog.resources.length = 3 :=
  ⟨by decide, rfl⟩

/-- C1 (amended): `discover()` against the example server yields exactly
the seven tools `add`, `multiply`, `divide`, `power`,
`get_current_time`, `echo`, `download_file`, the three text resources
(config, health, capabilities) and the two prompt templates
`code_review` and `explain_code`, grouped by category with nothing
extra and nothing missing. -/
theorem c1_discover_catalog :
    (ToolManager.discover exampleCatalog).catalog.tools.map (fun d => d.name) =
      ["add", "multiply", "divide", "power", "get_current_time", "echo", "download_file"] ∧
    (ToolManager.discover exampleCatalog).catalog.resources =
      ["config://server", "status://health", "info://capabilities"] ∧
    (ToolManager.discover exampleCatalog).catalog.prompts =
      ["code_review", "explain_code"] ∧
    (ToolManager.discover exampleCatalog).describe =
      [("calculator", ["add", "multiply", "divide", "power"]),
       ("utility", ["get_current_time", "echo"]),
       ("file", ["download_file"])] :=
  ⟨rfl, rfl, rfl, by decide⟩

/-- C7: `execute_tool_directly("add", {a:15, b:27})` returns a
successful ToolCallRecord with result 42, and the `add` tool returns
the exact sum of its two arguments. -/
theorem c7_add_returns_sum : ∀ (now : String) (dur : Nat) (conv : List Message),
    (Agent.execute_tool_directly { tm := ToolManager.discover exampleCatalog, conversation := conv }
        (callTool now) dur "add" [("a", Value.num 15), ("b", Value.num 27)] =
      Except.ok { tool_name := "add", arguments := [("a", Value.num 15), ("b", Value.num 27)],
                  success := true, result := some (Value.num 42), error := none,
                  execution_time_ms := dur }) ∧
    ∀ a b : ℚ, callTool now "add" [("a", Value.num a), ("b", Value.num b)] =
      Except.ok (Value.num (a + b)) := by
  intro now dur conv
  constructor
  · have hcall : callTool now "add" [("a", Value.num 15), ("b", Value.num 27)] =
        Except.ok (Value.num 42) := by
      show Except.ok (Value.num (add 15 27)) = Except.ok (Value.num 42)
      norm_num [add]
    simp [Agent.execute_tool_directly, ToolManager.execute, hcall,
      ToolManager.knows, ToolManager.discover, exampleCatalog, exampleTools]
  · intro a b
    rfl

/-- C2: `execute_tool_directly("divide", {a:100, b:0})` returns a failed
ToolCallRecord whose error message references division by zero, without
raising to the caller; more generally any tool-side failure is captured
as a failed ToolCallRecord by `execute`, never propagated. -/
theorem c2_divide_by_zero_recovered :
    (∀ (now : String) (dur : Nat) (conv : List Message),
      Agent.execute_tool_directly { tm := ToolManager.discover exampleCatalog, conversation := conv }
          (callTool now) dur "divide" [("a", Value.num 100), ("b", Value.num 0)] =
        Except.ok { tool_name := "divide",
                    arguments := [("a", Value.num 100), ("b", Value.num 0)],
                    success := false, result := none,
                    error := some "Cannot divide by zero", execution_time_ms := dur }) ∧
    ∀ (tm : ToolManager) (call : String → List (String × Value) → Except String Value)
      (dur : Nat) (name : String) (args : List (String × Value)) (msg : String),
      tm.knows name = true → call name args = Except.error msg →
        tm.execute call dur name args =
          Except.ok { tool_name := name, arguments := args, success := false,
                      result := none, error := some msg, execution_time_ms := dur } := by
  constructor
  · intro now dur conv
    have hcall : callTool now "divide" [("a", Value.num 100), ("b", Value.num 0)] =
        Except.error "Cannot divide by zero" := rfl
    simp [Agent.execute_tool_directly, ToolManager.execute, hcall,
      ToolManager.knows, ToolManager.discover, exampleCatalog, exampleTools]
  · intro tm call dur name args msg hk hc
    simp [ToolManager.execute, hk, hc]

/-- C2 witness: the general recovery statement applied to the concrete
division-by-zero input. -/
theorem c2_witness :
    (ToolManager.discover exampleCatalog).execute (callTool "now") 0 "divide"
        [("a", Value.num 100), ("b", Value.num 0)] =
      Except.ok { tool_name := "divide",
                  arguments := [("a", Value.num 100), ("b", Value.num 0)],
                  success := false, result := none,
                  error := some "Cannot divide by zero", execution_time_ms := 0 } :=
  c2_divide_by_zero_recovered.2 (ToolManager.discover exampleCatalog) (callTool "now") 0
    "divide" [("a", Value.num 100), ("b", Value.num 0)] "Cannot divide by zero" rfl rfl

/-- C8: in "both" mode the interrupt handler shuts each still-live child
process down cooperatively: terminate first, then a join bounded by 5
seconds, and a kill only for a process still alive after that grace
period; a dead process gets no action at all. -/
theorem c8_shutdown_grace : ∀ p : Proc,
    (SdAction.kill p.name ∈ shutdownProc p →
      p.alive = true ∧ p.exitsWithinGrace = false ∧
      shutdownProc p =
        [SdAction.terminate p.name, SdAction.join p.name 5, SdAction.kill p.name]) ∧
    (p.alive = true →
      (shutdownProc p).take 2 = [SdAction.terminate p.name, SdAction.join p.name 5]) ∧
    (p.alive = false → shutdownProc p = []) := by
  intro p
  obtain ⟨n, a, g⟩ := p
  cases a <;> cases g <;> simp [shutdownProc]

/-- C8 witness: a live process that ignores the grace period is first
terminated, joined with the 5-second bound, and only then killed. -/
theorem c8_witness :
    shutdownProc { name := "MCP-API", alive := true, exitsWithinGrace := false } =
      [SdAction.terminate "MCP-API", SdAction.join "MCP-API" 5, SdAction.kill "MCP-API"] :=
  ((c8_shutdown_grace { name := "MCP-API", alive := true, exitsWithinGrace := false }).1
    (by decide)).2.2

/-- C3: whenever the LLM requests further tool calls on every round, the
tool-resolution loop stops at the configured maximum round count and
the turn reports the `toolLoopExceededError` kind instead of looping
forever. -/
theorem c3_tool_loop_exceeded (llm : List Message → LLMReply)
    (call : String → List (String × Value) → Except String Value)
    (dur maxRounds : Nat) (ag : Agent) (msg : String)
    (h : ∀ conv, (llm conv).tool_calls ≠ []) :
    (ag.chat llm call dur maxRounds msg).2.error_kind =
      some ErrorKind.toolLoopExceededError := by
  simp [Agent.chat, resolve_exceeded llm call ag.tm dur h]

/-- C3 witness: an LLM stub that always requests one more `add` call
drives `chat` into the loop-exceeded outcome. -/
theorem c3_witness :
    (Agent.chat { tm := ToolManager.discover exampleCatalog, conversation := [] }
        (fun _ => { text := "again",
                    tool_calls := [{ name := "add", arguments := [] }], tokens := 0 })
        (callTool "t") 1 3 "hi").2.error_kind =
      some ErrorKind.toolLoopExceededError :=
  c3_tool_loop_exceeded _ (callTool "t") 1 3
    { tm := ToolManager.discover exampleCatalog, conversation := [] } "hi"
    (fun _ => by simp)

/-- C6: an unknown tool name makes `Tool Manager.execute` fail with the
`NotFoundError` kind; from `execute_tool_directly` that failure is
propagated to the caller, while inside `chat`'s tool-resolution loop it
is recovered into a failed ToolCallRecord and the turn continues to a
normal reply. -/
theorem c6_unknown_tool (tm : ToolManager)
    (call : String → List (String × Value) → Except String Value)
    (dur : Nat) (name : String) (args : List (String × Value)) (conv : List Message)
    (h : tm.knows name = false) :
    tm.execute call dur name args = Except.error ErrorKind.notFoundError ∧
    Agent.execute_tool_directly { tm := tm, conversation := conv } call dur name args =
      Except.error ErrorKind.notFoundError ∧
    (recoverExecute tm call dur { name := name, arguments := args }).success = false ∧
    (Agent.chat { tm := tm, conversation := [] } (oneShotLLM name args)
        call dur 2 "go").2.error_kind = none ∧
    (Agent.chat { tm := tm, conversation := [] } (oneShotLLM name args)
        call dur 2 "go").2.tool_calls =
      [{ tool_name := name, arguments := args, success := false, result := none,
         error := some ("Tool not found: " ++ name), execution_time_ms := dur }] := by
  have hex : tm.execute call dur name args = Except.error ErrorKind.notFoundError := by
    simp [ToolManager.execute, h]
  have hrec : recoverExecute tm call dur { name := name, arguments := args } =
      { tool_name := name, arguments := args, success := false, result := none,
        error := some ("Tool not found: " ++ name), execution_time_ms := dur } := by
    simp [recoverExecute, hex]
  refine ⟨hex, hex, by rw [hrec], ?_, ?_⟩ <;>
    simp [Agent.chat, resolve, oneShotLLM, hrec, userMsg, toolMsg, isToolMsg, assistantMsg]

/-- C6 witness: a name absent from the example catalog is rejected with
the `NotFoundError` kind when executed directly. -/
theorem c6_witness :
    (ToolManager.discover exampleCatalog).execute (callTool "t") 0 "nonexistent" [] =
      Except.error ErrorKind.notFoundError :=
  (c6_unknown_tool (ToolManager.discover exampleCatalog) (callTool "t") 0
    "nonexistent" [] [] (by decide)).1

/-- C4: within a single `chat` turn the requested tool calls are
executed sequentially in request order: the turn's ToolCallRecords are
exactly the requested calls mapped through execution, the Conversation
gains exactly one tool-role Message per requested call in that order,
and each record's success flag accurately reflects whether the tool was
found and its provider call succeeded. -/
theorem c4_tool_messages_in_order (llm : List Message → LLMReply)
    (call : String → List (String × Value) → Except String Value)
    (dur maxRounds : Nat) (ag : Agent) (msg : String) :
    ((ag.chat llm call dur maxRounds msg).2.tool_calls =
      (turnRequests llm call ag.tm dur maxRounds (ag.conversation ++ [userMsg msg])).map
        (recoverExecute ag.tm call dur)) ∧
    (((ag.chat llm call dur maxRounds msg).1.conversation).filter isToolMsg =
      ag.conversation.filter isToolMsg ++
        ((ag.chat llm call dur maxRounds msg).2.tool_calls).map toolMsg) ∧
    ∀ req : ToolCallRequest,
      (recoverExecute ag.tm call dur req).success =
        (ag.tm.knows req.name && callOk (call req.name req.arguments)) := by
  refine ⟨?_, ?_, ?_⟩
  · simp [Agent.chat,
      resolve_recs_eq llm call ag.tm dur maxRounds (ag.conversation ++ [userMsg msg]) [] ""]
  · simp only [Agent.chat,
      resolve_filter_tool llm call ag.tm dur maxRounds (ag.conversation ++ [userMsg msg]) [] "",
      resolve_recs_eq llm call ag.tm dur maxRounds (ag.conversation ++ [userMsg msg]) [] ""]
    simp [List.filter_append, isToolMsg, userMsg]
  · intro req
    by_cases hk : ag.tm.knows req.name
    · cases hc : call req.name req.arguments with
      | ok v => simp [recoverExecute, ToolManager.execute, hk, hc, callOk]
      | error m => simp [recoverExecute, ToolManager.execute, hk, hc, callOk]
    · have hk' : ag.tm.knows req.name = false := by
        cases hkk : ag.tm.knows req.name
        · rfl
        · exact absurd hkk hk
      simp [recoverExecute, ToolManager.execute, hk', callOk]

/-- C5: the Conversation is append-only — each `chat` call only appends
to the history, so after two successive calls the length never
decreases and the first messages after the second call are exactly the
full history as it stood after the first call. -/
theorem c5_history_append_only (llm1 llm2 : List Message → LLMReply)
    (call1 call2 : String → List (String × Value) → Except String Value)
    (dur1 dur2 mr1 mr2 : Nat) (ag : Agent) (m1 m2 : String) :
    (∃ t1, ((ag.chat llm1 call1 dur1 mr1 m1).1).conversation = ag.conversation ++ t1) ∧
    (∃ t2, (((ag.chat llm1 call1 dur1 mr1 m1).1).chat llm2 call2 dur2 mr2 m2).1.conversation =
      ((ag.chat llm1 call1 dur1 mr1 m1).1).conversation ++ t2) ∧
    ag.conversation.length ≤ ((ag.chat llm1 call1 dur1 mr1 m1).1).conversation.length ∧
    ((ag.chat llm1 call1 dur1 mr1 m1).1).conversation.length ≤
      (((ag.chat llm1 call1 dur1 mr1 m1).1).chat llm2 call2 dur2 mr2 m2).1.conversation.length ∧
    ((((ag.chat llm1 call1 dur1 mr1 m1).1).chat llm2 call2 dur2 mr2 m2).1.conversation.take
        ((ag.chat llm1 call1 dur1 mr1 m1).1).conversation.length =
      ((ag.chat llm1 call1 dur1 mr1 m1).1).conversation) := by
  obtain ⟨t1, h1⟩ := chat_conv_append ag llm1 call1 dur1 mr1 m1
  obtain ⟨t2, h2⟩ := chat_conv_append ((ag.chat llm1 call1 dur1 mr1 m1).1) llm2 call2 dur2 mr2 m2
  refine ⟨⟨t1, h1⟩, ⟨t2, h2⟩, ?_, ?_, ?_⟩
  · rw [h1]; simp
  · rw [h2]; simp
  · rw [h2]
    exact List.take_left _ _
